import Mathlib

/-!
Verification of the Excel Sheet Matcher core (src/app.py) against its
specification. The embedding models tables as lists of association-list
rows whose cells are `Option String`: `none` is a blank/NaN cell, `some s`
a string cell. All cell reads in `process_sheets` happen after the
blank-fill step (`fillna('')`), so every cell read is a `some`.
-/

set_option autoImplicit false

namespace ExcelMatcher

/-- Python's `str.lower()`: lower-case every character. -/
def pyLower (s : String) : String :=
  ⟨s.data.map Char.toLower⟩

/-- Python's `str.strip()`: drop whitespace from both ends. -/
def pyStrip (s : String) : String :=
  ⟨((s.data.dropWhile Char.isWhitespace).reverse.dropWhile Char.isWhitespace).reverse⟩

/-- A cell value: `none` models a blank/NaN cell, `some s` a string cell. -/
abbrev Cell := Option String

/-- A row: an association list from column name to cell value. -/
abbrev Row := List (String × Cell)

/-- A table: an ordered column-name list plus an ordered list of rows. -/
structure Table where
  cols : List String
  rows : List Row
deriving DecidableEq

/-- Read the cell of column `c` in row `r` (a missing entry reads as blank). -/
def getCell (r : Row) (c : String) : Cell :=
  (r.lookup c).getD none

/-- Read the cell of column `c` in row `r` as a string, as the code does with
`str(row[col])`; after the blank-fill every cell is a string already. -/
def getStr (r : Row) (c : String) : String :=
  (getCell r c).getD ""

/-- Blank-fill of one row: `fillna('')` replaces each blank cell by `""`. -/
def fillnaRow (r : Row) : Row :=
  r.map (fun p => (p.1, some (p.2.getD "")))

/-- Blank-fill of a table: `df.fillna('')` (returns a fresh table, the
argument is not modified). -/
def fillnaTable (t : Table) : Table :=
  ⟨t.cols, t.rows.map fillnaRow⟩

/-- Sheet Resolver, from `find_sheet_names` (src/app.py lines 60-72): scan
the sheet names in order; a name whose lower-cased form is "noc" or "nov"
overwrites the lookup slot, a name whose lower-cased form is "rec"
overwrites the target slot (so the last match wins). -/
def find_sheet_names (sheets : List String) : Option String × Option String :=
  sheets.foldl
    (fun acc sheet =>
      let l := pyLower sheet
      if l = "noc" ∨ l = "nov" then (some sheet, acc.2)
      else if l = "rec" then (acc.1, some sheet)
      else acc)
    (none, none)

/-- Missing-role report, from `main` (src/app.py lines 212-217): list
"NOC/NOV" when the lookup slot is unresolved and "REC" when the target
slot is unresolved. -/
def missing_sheets (res : Option String × Option String) : List String :=
  (if res.1.isNone then ["NOC/NOV"] else []) ++
  (if res.2.isNone then ["REC"] else [])

/-- The accepted key-column spellings, in priority order (src/app.py line 76). -/
def possible_order_id_names : List String :=
  ["order_id", "Order ID", "OrderID", "orderid", "Order Id"]

/-- The accepted value-column spellings, in priority order (src/app.py line 84). -/
def possible_product_names : List String :=
  ["Product Name", "product_name", "ProductName", "ITEM NAME", "Item Name"]

/-- Key-role Column Resolver, from `get_order_id_column` (src/app.py lines
74-80): first accepted spelling present among the columns, else the first
column; `none` models the `IndexError` raised by `df.columns[0]` on an
empty column list. -/
def get_order_id_column (cols : List String) : Option String :=
  match possible_order_id_names.find? (fun n => cols.contains n) with
  | some n => some n
  | none => cols.get? 0

/-- Value-role Column Resolver, from `get_product_name_column` (src/app.py
lines 82-88): first accepted spelling present among the columns, else the
second column; `none` models the `IndexError` raised by `df.columns[1]`
when fewer than two columns exist. -/
def get_product_name_column (cols : List String) : Option String :=
  match possible_product_names.find? (fun n => cols.contains n) with
  | some n => some n
  | none => cols.get? 1

/-- Lookup Mapping construction, from src/app.py lines 108-111: iterate the
lookup rows in order; when the key cell is truthy (a non-empty string,
since rows are blank-filled before this runs), store the value cell under
the trimmed key, overwriting any earlier entry. The Python dict is modelled
extensionally as a function. -/
def buildOrderMap (keyCol valCol : String) (rows : List Row) : String → Option Cell :=
  rows.foldl
    (fun m row =>
      if getStr row keyCol ≠ "" then
        fun k => if k = pyStrip (getStr row keyCol) then some (getCell row valCol) else m k
      else m)
    (fun _ => none)

/-- Ensure the output column exists, from src/app.py lines 114-115: when
"ITEM NAME" is not among the columns, append it with every cell `""`. -/
def ensureItemName (t : Table) : Table :=
  if t.cols.contains "ITEM NAME" then t
  else ⟨t.cols ++ ["ITEM NAME"], t.rows.map (fun r => r ++ [("ITEM NAME", some "")])⟩

/-- Overwrite the cell of column `c` in row `r` with `v` (pandas
`df.at[idx, c] = v`). -/
def setCell (r : Row) (c : String) (v : Cell) : Row :=
  r.map (fun p => if p.1 = c then (p.1, v) else p)

/-- Enrichment of one target row, from src/app.py lines 118-121: trim the
key cell; when the trimmed key is in the mapping, overwrite the "ITEM NAME"
cell with the mapped value, otherwise leave the row untouched. -/
def enrichRow (m : String → Option Cell) (keyCol : String) (r : Row) : Row :=
  match m (pyStrip (getStr r keyCol)) with
  | some v => setCell r "ITEM NAME" v
  | none => r

/-- The Lookup-Join Engine, from `process_sheets` (src/app.py lines 90-128):
blank-fill both tables, resolve the lookup key/value columns and the target
key column, build the Lookup Mapping, ensure the output column, enrich every
target row. Any failure (a column resolver raising on an out-of-range
positional fallback) is caught by the surrounding `except`, which returns
`None`: the result is `none` with no partial table. -/
def process_sheets (nocT recT : Table) : Option Table :=
  let nocF := fillnaTable nocT
  let recF := fillnaTable recT
  match get_order_id_column nocF.cols, get_product_name_column nocF.cols,
        get_order_id_column recF.cols with
  | some kN, some vN, some kR =>
    let m := buildOrderMap kN vN nocF.rows
    let recE := ensureItemName recF
    some ⟨recE.cols, recE.rows.map (enrichRow m kR)⟩
  | _, _, _ => none

/-- Caller-visible state transformer of one engine invocation. The Python
callee rebinds its locals to `fillna` copies (lines 99-100) and all later
mutation (`rec_df['ITEM NAME'] = ''`, `rec_df.at[...]`) hits those copies
only, so the caller's two tables are returned unchanged alongside the
result. -/
def process_sheets_state (nocT recT : Table) : Option Table × Table × Table :=
  (process_sheets nocT recT, nocT, recT)

/-- Total row count reported by `main` (src/app.py line 206): `len(result_df)`. -/
def total_count (t : Table) : Nat :=
  t.rows.length

/-- Matched row count reported by `main` (src/app.py line 205):
`result_df['ITEM NAME'].notna().sum()`, i.e. the number of rows whose
"ITEM NAME" cell is non-NaN. -/
def matched_count (t : Table) : Nat :=
  (t.rows.filter (fun r => (getCell r "ITEM NAME").isSome)).length

/-- Modelled from the spec: matched row count = number of target rows whose
output-column ("ITEM NAME") cell is non-blank after enrichment. Present for
comparison with `matched_count`, which is what the code computes. -/
def spec_matched_count (t : Table) : Nat :=
  (t.rows.filter (fun r => getStr r "ITEM NAME" ≠ "")).length

/-- The lookup-role sheet-name test, from src/app.py line 67. -/
def isNocName (s : String) : Bool :=
  pyLower s == "noc" || pyLower s == "nov"

/-- The target-role sheet-name test, from src/app.py line 69. -/
def isRecName (s : String) : Bool :=
  pyLower s == "rec"

/-- The lookup table of the spec's end-to-end scenario. -/
def nocScenario : Table :=
  ⟨["order_id", "Product Name"],
    [[("order_id", some "A1"), ("Product Name", some "Widget")],
     [("order_id", some "A2"), ("Product Name", some "Gadget")],
     [("order_id", some "A1"), ("Product Name", some "WidgetV2")]]⟩

/-- The target table of the spec's end-to-end scenario. -/
def recScenario : Table :=
  ⟨["order_id"],
    [[("order_id", some "A1")], [("order_id", some "A2")],
     [("order_id", some "A3")], [("order_id", some "")]]⟩

/-- The enriched table the engine produces on the end-to-end scenario. -/
def outScenario : Table :=
  ⟨["order_id", "ITEM NAME"],
    [[("order_id", some "A1"), ("ITEM NAME", some "WidgetV2")],
     [("order_id", some "A2"), ("ITEM NAME", some "Gadget")],
     [("order_id", some "A3"), ("ITEM NAME", some "")],
     [("order_id", some ""), ("ITEM NAME", some "")]]⟩

/-- A small lookup table (one matching key) used to exhibit the statistics bug. -/
def nocMini : Table :=
  ⟨["order_id", "Product Name"],
    [[("order_id", some "A1"), ("Product Name", some "Widget")]]⟩

/-- A small target table with one matching and one unmatched row. -/
def recMini : Table :=
  ⟨["order_id"], [[("order_id", some "A1")], [("order_id", some "ZZ")]]⟩

/-- The enriched table the engine produces on `nocMini`/`recMini`. -/
def outMini : Table :=
  ⟨["order_id", "ITEM NAME"],
    [[("order_id", some "A1"), ("ITEM NAME", some "Widget")],
     [("order_id", some "ZZ"), ("ITEM NAME", some "")]]⟩

/-- A one-row target table whose key matches nothing in `nocScenario`. -/
def recNoMatch : Table :=
  ⟨["order_id"], [[("order_id", some "ZZ")]]⟩

/-- The enriched table the engine produces on `nocScenario`/`recNoMatch`. -/
def outNoMatch : Table :=
  ⟨["order_id", "ITEM NAME"],
    [[("order_id", some "ZZ"), ("ITEM NAME", some "")]]⟩

lemma pyStrip_empty : pyStrip "" = "" := by decide

lemma buildOrderMap_nil (kc vc : String) :
    buildOrderMap kc vc [] = fun _ => none := rfl

lemma buildOrderMap_append (kc vc : String) (rows : List Row) (r : Row) :
    buildOrderMap kc vc (rows ++ [r]) = fun k =>
      if getStr r kc ≠ "" ∧ k = pyStrip (getStr r kc) then some (getCell r vc)
      else buildOrderMap kc vc rows k := by
  funext k
  unfold buildOrderMap
  rw [List.foldl_append]
  simp only [List.foldl_cons, List.foldl_nil]
  by_cases h1 : getStr r kc = ""
  · simp [h1]
  · by_cases h2 : k = pyStrip (getStr r kc) <;> simp [h1, h2]

lemma buildOrderMap_isSome_iff (kc vc k : String) (rows : List Row) :
    (buildOrderMap kc vc rows k).isSome ↔
      ∃ row ∈ rows, getStr row kc ≠ "" ∧ pyStrip (getStr row kc) = k := by
  induction rows using List.reverseRecOn with
  | nil => simp [buildOrderMap_nil]
  | append_singleton l r ih =>
    simp only [buildOrderMap_append]
    by_cases h1 : getStr r kc = ""
    · rw [if_neg (by rintro ⟨hne, -⟩; exact hne h1), ih]
      constructor
      · rintro ⟨row, hm, hrow⟩
        exact ⟨row, List.mem_append.mpr (Or.inl hm), hrow⟩
      · rintro ⟨row, hm, hrow⟩
        rcases List.mem_append.mp hm with hm | hm
        · exact ⟨row, hm, hrow⟩
        · rcases List.mem_singleton.mp hm with rfl
          exact absurd h1 hrow.1
    · by_cases h2 : k = pyStrip (getStr r kc)
      · rw [if_pos ⟨h1, h2⟩]
        simp only [Option.isSome_some, true_iff]
        exact ⟨r, List.mem_append.mpr (Or.inr (List.mem_singleton.mpr rfl)), h1, h2.symm⟩
      · rw [if_neg (by rintro ⟨-, hk2⟩; exact h2 hk2), ih]
        constructor
        · rintro ⟨row, hm, hrow⟩
          exact ⟨row, List.mem_append.mpr (Or.inl hm), hrow⟩
        · rintro ⟨row, hm, hrow⟩
          rcases List.mem_append.mp hm with hm | hm
          · exact ⟨row, hm, hrow⟩
          · rcases List.mem_singleton.mp hm with rfl
            exact absurd hrow.2 (fun he => h2 he.symm)

lemma find_sheet_names_foldl (sheets : List String) (acc : Option String × Option String) :
    sheets.foldl
      (fun acc sheet =>
        let l := pyLower sheet
        if l = "noc" ∨ l = "nov" then (some sheet, acc.2)
        else if l = "rec" then (acc.1, some sheet)
        else acc)
      acc =
    (((sheets.filter isNocName).getLast?).or acc.1,
     ((sheets.filter isRecName).getLast?).or acc.2) := by
  induction sheets using List.reverseRecOn with
  | nil => simp
  | append_singleton l s ih =>
    rw [List.foldl_append, ih]
    simp only [List.foldl_cons, List.foldl_nil, List.filter_append]
    by_cases hn : pyLower s = "noc" ∨ pyLower s = "nov"
    · have hnb : isNocName s = true := by
        rcases hn with h | h <;> simp [isNocName, h]
      have hrb : isRecName s = false := by
        rcases hn with h | h <;> simp [isRecName, h]
      rw [if_pos hn]
      simp [hnb, hrb, List.filter_singleton]
    · by_cases hr : pyLower s = "rec"
      · have hnb : isNocName s = false := by
          simp only [isNocName, hr]; decide
        have hrb : isRecName s = true := by simp [isRecName, hr]
        rw [if_neg hn, if_pos hr]
        simp [hnb, hrb, List.filter_singleton]
      · have hnb : isNocName s = false := by
          simp only [isNocName, Bool.or_eq_false_iff, beq_eq_false_iff_ne, ne_eq]
          exact ⟨fun h => hn (Or.inl h), fun h => hn (Or.inr h)⟩
        have hrb : isRecName s = false := by
          simp [isRecName, hr]
        rw [if_neg hn, if_neg hr]
        simp [hnb, hrb, List.filter_singleton]

lemma ensureItemName_rows_length (t : Table) :
    (ensureItemName t).rows.length = t.rows.length := by
  unfold ensureItemName
  split <;> simp

lemma find?_eq_head?_filter {α : Type} (p : α → Bool) (l : List α) :
    l.find? p = (l.filter p).head? := by
  induction l with
  | nil => rfl
  | cons a l ih =>
    by_cases h : p a
    · rw [List.find?_cons_of_pos _ h, List.filter_cons_of_pos h, List.head?_cons]
    · rw [List.find?_cons_of_neg _ h, List.filter_cons_of_neg h, ih]

/-- C2: the Sheet Resolver resolves the lookup role to the last sheet name
whose lower-cased form is "noc" or "nov" and the target role to the last
name whose lower-cased form is "rec" (last-match-wins); a resolved name
always satisfies its role's test, and the missing-sheet report names
"NOC/NOV" exactly when no name matches the lookup role and "REC" exactly
when no name matches the target role. -/
theorem find_sheet_names_spec (sheets : List String) :
    (find_sheet_names sheets).1 = (sheets.filter isNocName).getLast?
  ∧ (find_sheet_names sheets).2 = (sheets.filter isRecName).getLast?
  ∧ (∀ s, (find_sheet_names sheets).1 = some s → isNocName s = true)
  ∧ (∀ s, (find_sheet_names sheets).2 = some s → isRecName s = true)
  ∧ (("NOC/NOV" ∈ missing_sheets (find_sheet_names sheets)) ↔ sheets.filter isNocName = [])
  ∧ (("REC" ∈ missing_sheets (find_sheet_names sheets)) ↔ sheets.filter isRecName = []) := by
  have hfold := find_sheet_names_foldl sheets (none, none)
  have h1 : (find_sheet_names sheets).1 = (sheets.filter isNocName).getLast? := by
    unfold find_sheet_names
    rw [hfold]
    exact Option.or_none
  have h2 : (find_sheet_names sheets).2 = (sheets.filter isRecName).getLast? := by
    unfold find_sheet_names
    rw [hfold]
    exact Option.or_none
  refine ⟨h1, h2, ?_, ?_, ?_, ?_⟩
  · intro s hs
    rw [h1] at hs
    exact List.of_mem_filter (List.mem_of_mem_getLast? hs)
  · intro s hs
    rw [h2] at hs
    exact List.of_mem_filter (List.mem_of_mem_getLast? hs)
  · have hm : ("NOC/NOV" ∈ missing_sheets (find_sheet_names sheets)) ↔
        (find_sheet_names sheets).1 = none := by
      cases hc : (find_sheet_names sheets).1 <;> simp [missing_sheets, hc]
    rw [hm, h1, List.getLast?_eq_none_iff]
  · have hm : ("REC" ∈ missing_sheets (find_sheet_names sheets)) ↔
        (find_sheet_names sheets).2 = none := by
      cases hc : (find_sheet_names sheets).2 <;> simp [missing_sheets, hc]
    rw [hm, h2, List.getLast?_eq_none_iff]

/-- Witness for `find_sheet_names_spec`: on the sheets ["Noc", "Rec"] both
roles resolve, and the resolved names satisfy their role tests. -/
theorem find_sheet_names_spec_witness :
    isNocName "Noc" = true ∧ isRecName "Rec" = true :=
  ⟨(find_sheet_names_spec ["Noc", "Rec"]).2.2.1 "Noc" (by decide),
   (find_sheet_names_spec ["Noc", "Rec"]).2.2.2.1 "Rec" (by decide)⟩

/-- C3: for a non-blank key, the Lookup Mapping returns the value-column
cell of the last lookup row whose trimmed key equals that key (so a key
occurring once maps to that row's value, and a duplicated key maps to its
last occurrence: last-write-wins). -/
theorem buildOrderMap_last_write_wins (kc vc k : String) (rows : List Row) (hk : k ≠ "") :
    buildOrderMap kc vc rows k =
      ((rows.filter (fun r => pyStrip (getStr r kc) == k)).getLast?).map
        (fun r => getCell r vc) := by
  induction rows using List.reverseRecOn with
  | nil => simp [buildOrderMap_nil]
  | append_singleton l r ih =>
    simp only [buildOrderMap_append, List.filter_append]
    by_cases hp : pyStrip (getStr r kc) = k
    · have hraw : getStr r kc ≠ "" := by
        intro h0
        rw [h0, pyStrip_empty] at hp
        exact hk hp.symm
      rw [if_pos ⟨hraw, hp.symm⟩]
      have hf : List.filter (fun r => pyStrip (getStr r kc) == k) [r] = [r] := by
        simp [List.filter_singleton, hp]
      rw [hf, List.getLast?_concat]
      rfl
    · rw [if_neg (by rintro ⟨-, h2⟩; exact hp h2.symm)]
      have hf : List.filter (fun r => pyStrip (getStr r kc) == k) [r] = [] := by
        simp [List.filter_singleton, hp]
      rw [hf, List.append_nil, ih]

/-- Witness for `buildOrderMap_last_write_wins`: the duplicated key "A1" of
the scenario lookup table maps to "WidgetV2", its last occurrence's value. -/
theorem buildOrderMap_last_write_wins_witness :
    buildOrderMap "order_id" "Product Name" nocScenario.rows "A1" = some (some "WidgetV2") := by
  rw [buildOrderMap_last_write_wins "order_id" "Product Name" "A1" nocScenario.rows (by decide)]
  decide

/-- C4 counterexample: the lookup row whose key cell is the whitespace-only
string " " trims to the empty string, yet it is not skipped (the code tests
the raw cell's truthiness, not the trimmed key): the mapping gains the
blank key "" with that row's value, refuting the claimed skip rule and the
non-blank-keys consequence. -/
theorem blank_trimmed_key_not_skipped :
    pyStrip " " = "" ∧
    buildOrderMap "order_id" "Product Name"
      [[("order_id", some " "), ("Product Name", some "V")]] "" = some (some "V") :=
  ⟨by decide, by decide⟩

/-- C4 (amended): a lookup row is skipped iff its key cell (after the
blank-fill) is the empty string before trimming; a row with a non-empty raw
key is inserted under its trimmed key, which may itself be blank; and every
key of the mapping arises as the trimmed key of some row whose raw key is
non-empty. -/
theorem buildOrderMap_skip_insert_policy (kc vc k : String) (rows : List Row) (r : Row) :
    buildOrderMap kc vc (rows ++ [r]) k =
      (if getStr r kc ≠ "" ∧ k = pyStrip (getStr r kc) then some (getCell r vc)
       else buildOrderMap kc vc rows k)
  ∧ ((buildOrderMap kc vc rows k).isSome ↔
       ∃ row ∈ rows, getStr row kc ≠ "" ∧ pyStrip (getStr row kc) = k) := by
  constructor
  · rw [buildOrderMap_append]
  · exact buildOrderMap_isSome_iff kc vc k rows

/-- C5 counterexample: the header set ["Order ID", "OrderID"] contains
"OrderID" and not "order_id", yet the key role resolves to "Order ID"
(which precedes "OrderID" in the priority list), not to "OrderID". -/
theorem order_id_priority_counterexample :
    ("OrderID" ∈ (["Order ID", "OrderID"] : List String))
  ∧ ("order_id" ∉ (["Order ID", "OrderID"] : List String))
  ∧ get_order_id_column ["Order ID", "OrderID"] = some "Order ID"
  ∧ get_order_id_column ["Order ID", "OrderID"] ≠ some "OrderID" := by
  refine ⟨by decide, by decide, by decide, by decide⟩

/-- C5 (amended): each resolver returns the first accepted spelling, in
priority order and by case-sensitive exact match, that occurs among the
columns, and falls back to the first (key role) or second (value role)
column name when none occurs; in particular a header set containing
"OrderID" and containing neither of the earlier spellings "order_id" and
"Order ID" resolves the key role to "OrderID". -/
theorem column_resolver_priority :
    (∀ cols : List String, get_order_id_column cols =
       match (possible_order_id_names.filter (fun n => cols.contains n)).head? with
       | some n => some n
       | none => cols.get? 0)
  ∧ (∀ cols : List String, get_product_name_column cols =
       match (possible_product_names.filter (fun n => cols.contains n)).head? with
       | some n => some n
       | none => cols.get? 1)
  ∧ (∀ cols : List String, "OrderID" ∈ cols → "order_id" ∉ cols → "Order ID" ∉ cols →
       get_order_id_column cols = some "OrderID") := by
  refine ⟨?_, ?_, ?_⟩
  · intro cols
    unfold get_order_id_column
    rw [find?_eq_head?_filter]
  · intro cols
    unfold get_product_name_column
    rw [find?_eq_head?_filter]
  · intro cols h1 h2 h3
    have c1 : cols.contains "order_id" = false :=
      Bool.eq_false_iff.mpr (fun hc => h2 (List.mem_of_elem_eq_true hc))
    have c2 : cols.contains "Order ID" = false :=
      Bool.eq_false_iff.mpr (fun hc => h3 (List.mem_of_elem_eq_true hc))
    have c3 : cols.contains "OrderID" = true := List.elem_eq_true_of_mem h1
    unfold get_order_id_column possible_order_id_names
    rw [List.find?_cons_of_neg _ (by rw [c1]; exact Bool.false_ne_true),
        List.find?_cons_of_neg _ (by rw [c2]; exact Bool.false_ne_true),
        List.find?_cons_of_pos _ c3]

/-- Witness for `column_resolver_priority`: the header set ["foo", "OrderID"]
contains "OrderID" and none of the earlier spellings, and resolves to it. -/
theorem column_resolver_priority_witness :
    get_order_id_column ["foo", "OrderID"] = some "OrderID" :=
  column_resolver_priority.2.2 ["foo", "OrderID"] (by decide) (by decide) (by decide)

/-- C6: when the engine succeeds, every target row whose trimmed key has no
entry in the Lookup Mapping appears in the output exactly as it stood after
the blank-fill and output-column-ensure steps: its "ITEM NAME" cell (and the
whole row) is unchanged, so only rows with a matching key are overwritten. -/
theorem unmatched_row_unchanged (nocT recT out : Table) (kN vN kR : String)
    (hkN : get_order_id_column (fillnaTable nocT).cols = some kN)
    (hvN : get_product_name_column (fillnaTable nocT).cols = some vN)
    (hkR : get_order_id_column (fillnaTable recT).cols = some kR)
    (hout : process_sheets nocT recT = some out)
    (i : Nat) (hi : i < (ensureItemName (fillnaTable recT)).rows.length)
    (hno : buildOrderMap kN vN (fillnaTable nocT).rows
        (pyStrip (getStr ((ensureItemName (fillnaTable recT)).rows.get ⟨i, hi⟩) kR)) = none) :
    out.rows.get? i = some ((ensureItemName (fillnaTable recT)).rows.get ⟨i, hi⟩) := by
  simp only [process_sheets] at hout
  rw [hkN, hvN, hkR] at hout
  obtain rfl := Option.some.inj hout
  simp only [List.get?_map, List.get?_eq_get hi, Option.map_some']
  simp only [enrichRow, hno]

/-- Witness for `unmatched_row_unchanged`: on `nocScenario`/`recNoMatch`,
the single target row's key "ZZ" matches nothing, and the output row equals
the blank-filled, column-ensured input row. -/
theorem unmatched_row_unchanged_witness :
    outNoMatch.rows.get? 0 =
      some ((ensureItemName (fillnaTable recNoMatch)).rows.get ⟨0, by decide⟩) :=
  unmatched_row_unchanged nocScenario recNoMatch outNoMatch
    "order_id" "Product Name" "order_id"
    (by decide) (by decide) (by decide) (by decide) 0 (by decide) (by decide)

/-- C8: running the engine a second time, on the two tables exactly as the
first invocation leaves them for the caller (unchanged, since the callee
rebinds its locals to blank-filled copies before mutating anything), yields
an identical result state: the same enriched table, hence the same
statistics, and the engine is a deterministic function of its inputs. -/
theorem process_sheets_run_twice (nocT recT : Table) :
    process_sheets_state (process_sheets_state nocT recT).2.1
        (process_sheets_state nocT recT).2.2
      = process_sheets_state nocT recT := rfl

/-- C9: the engine is all-or-nothing: whenever it returns a table at all,
the three column resolutions succeeded and the returned table is the full
enrichment of every target row (same number of rows as the target table),
never a partial result; a resolution failure instead yields `none`. -/
theorem process_sheets_all_or_nothing (nocT recT out : Table)
    (h : process_sheets nocT recT = some out) :
    total_count out = recT.rows.length ∧
    ∃ kN vN kR,
      get_order_id_column (fillnaTable nocT).cols = some kN ∧
      get_product_name_column (fillnaTable nocT).cols = some vN ∧
      get_order_id_column (fillnaTable recT).cols = some kR ∧
      out.cols = (ensureItemName (fillnaTable recT)).cols ∧
      out.rows = ((ensureItemName (fillnaTable recT)).rows).map
        (enrichRow (buildOrderMap kN vN (fillnaTable nocT).rows) kR) := by
  simp only [process_sheets] at h
  cases hN : get_order_id_column (fillnaTable nocT).cols with
  | none => rw [hN] at h; simp at h
  | some kN =>
    cases hV : get_product_name_column (fillnaTable nocT).cols with
    | none => rw [hN, hV] at h; simp at h
    | some vN =>
      cases hR : get_order_id_column (fillnaTable recT).cols with
      | none => rw [hN, hV, hR] at h; simp at h
      | some kR =>
        rw [hN, hV, hR] at h
        obtain rfl := Option.some.inj h
        refine ⟨?_, kN, vN, kR, rfl, rfl, rfl, rfl, rfl⟩
        simp [total_count, ensureItemName_rows_length, fillnaTable]

/-- Witness for `process_sheets_all_or_nothing`: the end-to-end scenario
run succeeds and its output is the complete enrichment of all four rows. -/
theorem process_sheets_all_or_nothing_witness :
    total_count outScenario = recScenario.rows.length ∧
    ∃ kN vN kR,
      get_order_id_column (fillnaTable nocScenario).cols = some kN ∧
      get_product_name_column (fillnaTable nocScenario).cols = some vN ∧
      get_order_id_column (fillnaTable recScenario).cols = some kR ∧
      outScenario.cols = (ensureItemName (fillnaTable recScenario)).cols ∧
      outScenario.rows = ((ensureItemName (fillnaTable recScenario)).rows).map
        (enrichRow (buildOrderMap kN vN (fillnaTable nocScenario).rows) kR) :=
  process_sheets_all_or_nothing nocScenario recScenario outScenario (by decide)

/-- C10: the key-role resolver returns `none` (modelling the out-of-range
`IndexError` of `df.columns[0]`) exactly on an empty column list, and the
value-role resolver returns `none` (the `IndexError` of `df.columns[1]`)
exactly when no accepted value spelling occurs and there are fewer than two
columns: the positional fallback is only safe with at least one
(respectively two) columns. -/
theorem column_fallback_out_of_range (cols : List String) :
    (get_order_id_column cols = none ↔ cols = [])
  ∧ (get_product_name_column cols = none ↔
      ((∀ n ∈ possible_product_names, n ∉ cols) ∧ cols.length < 2)) := by
  constructor
  · unfold get_order_id_column
    cases hf : possible_order_id_names.find? (fun n => cols.contains n) with
    | some n =>
      simp only [reduceCtorEq, false_iff]
      rintro rfl
      have := List.find?_some hf
      simp at this
    | none =>
      simp only [List.get?_eq_none]
      exact ⟨fun h => List.length_eq_zero.mp (Nat.le_zero.mp h),
             fun h => by rw [h]; exact Nat.le_refl 0⟩
  · unfold get_product_name_column
    cases hf : possible_product_names.find? (fun n => cols.contains n) with
    | some n =>
      simp only [reduceCtorEq, false_iff]
      rintro ⟨hall, -⟩
      have hc : cols.contains n = true := List.find?_some hf
      exact hall n (List.mem_of_find?_eq_some hf) (List.mem_of_elem_eq_true hc)
    | none =>
      simp only [List.get?_eq_none]
      constructor
      · intro h
        refine ⟨?_, Nat.lt_succ_of_le h⟩
        intro n hn hmem
        have := List.find?_eq_none.mp hf n hn
        exact this (List.elem_eq_true_of_mem hmem)
      · rintro ⟨-, h2⟩
        exact Nat.lt_succ_iff.mp h2

/-- C1: the statistics the code reports on a concrete run: on
`nocMini`/`recMini` (one matched row, one unmatched row) the reported
matched count — the number of non-NaN "ITEM NAME" cells — is 2, equal to
the total count, although only 1 row has a non-blank "ITEM NAME" cell:
after the blank-fill every cell is non-NaN, so the reported matched count
never reflects non-blank cells, and no match-rate percentage is computed
anywhere in the code. -/
theorem stats_count_non_nan_not_nonblank :
    process_sheets nocMini recMini = some outMini
  ∧ total_count outMini = 2
  ∧ matched_count outMini = 2
  ∧ spec_matched_count outMini = 1 := by
  refine ⟨by decide, by decide, by decide, by decide⟩

/-- C7: on the spec's end-to-end scenario the engine produces exactly the
expected enriched column ["WidgetV2", "Gadget", "", ""] with total 4, and 2
rows are non-blank (the spec's matched = 2, i.e. 50%), but the code's
reported matched count is 4, since it counts non-NaN cells. -/
theorem end_to_end_scenario_eval :
    process_sheets nocScenario recScenario = some outScenario
  ∧ outScenario.rows.map (fun r => getCell r "ITEM NAME")
      = [some "WidgetV2", some "Gadget", some "", some ""]
  ∧ total_count outScenario = 4
  ∧ spec_matched_count outScenario = 2
  ∧ spec_matched_count outScenario * 100 = 50 * total_count outScenario
  ∧ matched_count outScenario = 4 := by
  refine ⟨by decide, by decide, by decide, by decide, by decide, by decide⟩

end ExcelMatcher
